import Mathlib

set_option maxRecDepth 8000

/-! Verification of the fra-react claim store and OCR intake stub.

The definitions below are a shallow embedding of `src/server/storage.ts`
(the in-memory backend `MemoryStorage`, plus the schema-level behaviour of
`DatabaseStorage.createClaim`), of the HTTP handlers in
`src/server/routes.ts` that the verified properties concern, and of
`src/server/services/ocrService.ts`.  `Date` values are modelled as
natural-number timestamps, generated UUIDs and random draws are taken as
explicit parameters, JSON geometry payloads are modelled as opaque strings,
and the decimal `area` column is modelled by its numeric (rational) value. -/

/-- Claim status enum (`claimStatusEnum` in `shared/schema.ts`). -/
inductive ClaimStatus
  | pending
  | approved
  | rejected
  | review_required
deriving DecidableEq, Repr

/-- File status enum (`fileStatusEnum` in `shared/schema.ts`). -/
inductive FileStatus
  | uploaded
  | processing
  | processed
  | failed
deriving DecidableEq, Repr

/-- A row of the `claims` table (`shared/schema.ts`). -/
structure Claim where
  id : String
  claimId : String
  claimantName : String
  village : String
  district : Option String
  state : Option String
  area : ℚ
  surveyNumber : Option String
  status : ClaimStatus
  ocrConfidence : Option ℤ
  boundaryGeometry : Option String
  rawOcrText : Option String
  userId : Option String
  createdAt : ℕ
  updatedAt : ℕ
deriving DecidableEq, Repr

/-- A row of the `uploaded_files` table (`shared/schema.ts`). -/
structure UploadedFile where
  id : String
  filename : String
  originalName : String
  mimetype : String
  size : ℕ
  status : FileStatus
  claimId : Option String
  userId : Option String
  uploadedAt : ℕ
deriving DecidableEq, Repr

/-- `ClaimWithFiles = Claim & { files: UploadedFile[] }` (`shared/schema.ts`). -/
structure ClaimWithFiles extends Claim where
  files : List UploadedFile
deriving DecidableEq, Repr

/-- `InsertClaim` (zod insert schema: the `claims` columns minus `id`,
`createdAt`, `updatedAt`; columns with a database default are optional). -/
structure InsertClaim where
  claimId : String
  claimantName : String
  village : String
  district : Option String
  state : Option String
  area : ℚ
  surveyNumber : Option String
  status : Option ClaimStatus
  ocrConfidence : Option ℤ
  boundaryGeometry : Option String
  rawOcrText : Option String
  userId : Option String
deriving DecidableEq, Repr

/-- `Partial<InsertClaim>`: every insertable column is optionally present.
For nullable columns the inner `Option` is the stored (nullable) value and
the outer `Option` records whether the key is present in the update. -/
structure ClaimUpdate where
  claimId : Option String := none
  claimantName : Option String := none
  village : Option String := none
  district : Option (Option String) := none
  state : Option (Option String) := none
  area : Option ℚ := none
  surveyNumber : Option (Option String) := none
  status : Option ClaimStatus := none
  ocrConfidence : Option (Option ℤ) := none
  boundaryGeometry : Option (Option String) := none
  rawOcrText : Option (Option String) := none
  userId : Option (Option String) := none
deriving DecidableEq, Repr

/-- `InsertFile` (zod insert schema: `uploaded_files` minus `id`, `uploadedAt`). -/
structure InsertFile where
  filename : String
  originalName : String
  mimetype : String
  size : ℕ
  status : Option FileStatus
  claimId : Option String
  userId : Option String
deriving DecidableEq, Repr

/-- `DashboardStats` (`shared/schema.ts`). -/
structure DashboardStats where
  totalClaims : ℕ
  processed : ℕ
  totalArea : ℚ
  pending : ℕ
deriving DecidableEq, Repr

/-- The private state of `MemoryStorage`: `claimsData` and `filesData`
(the `users` array is irrelevant to the verified properties). -/
structure MemState where
  claimsData : List ClaimWithFiles
  filesData : List UploadedFile
deriving DecidableEq, Repr

instance {ε α : Type} [DecidableEq ε] [DecidableEq α] : DecidableEq (Except ε α) := fun
  | .error a, .error b =>
    decidable_of_iff (a = b) ⟨fun h => by rw [h], fun h => by cases h; rfl⟩
  | .error _, .ok _ => isFalse (by intro h; cases h)
  | .ok _, .error _ => isFalse (by intro h; cases h)
  | .ok a, .ok b =>
    decidable_of_iff (a = b) ⟨fun h => by rw [h], fun h => by cases h; rfl⟩

/-- Replace the first element satisfying `p` by its image under `f`;
models `findIndex` followed by an indexed assignment. -/
def replaceFirst {α : Type} (p : α → Bool) (f : α → α) : List α → List α
  | [] => []
  | x :: xs => if p x then f x :: xs else x :: replaceFirst p f xs

namespace MemoryStorage

/-- `MemoryStorage.getClaim`. -/
def getClaim (s : MemState) (id : String) : Option ClaimWithFiles :=
  s.claimsData.find? (fun c => c.id == id)

/-- `MemoryStorage.getClaimByClaimId`. -/
def getClaimByClaimId (s : MemState) (claimId : String) : Option Claim :=
  (s.claimsData.find? (fun c => c.claimId == claimId)).map ClaimWithFiles.toClaim

/-- `MemoryStorage.getClaims` (default limit 50). -/
def getClaims (s : MemState) (limit : ℕ := 50) : List ClaimWithFiles :=
  s.claimsData.take limit

/-- `MemoryStorage.createClaim`: builds the row with a fresh id, both
timestamps set to now, status defaulting to `pending` (overridden by the
insert data when present), and unshifts it onto `claimsData` with an empty
`files` array.  No uniqueness check is performed. -/
def createClaim (s : MemState) (newId : String) (now : ℕ) (claim : InsertClaim) :
    Claim × MemState :=
  let created : Claim :=
    { id := newId
      createdAt := now
      updatedAt := now
      status := claim.status.getD .pending
      claimId := claim.claimId
      claimantName := claim.claimantName
      village := claim.village
      district := claim.district
      state := claim.state
      area := claim.area
      surveyNumber := claim.surveyNumber
      ocrConfidence := claim.ocrConfidence
      boundaryGeometry := claim.boundaryGeometry
      rawOcrText := claim.rawOcrText
      userId := claim.userId }
  let entry : ClaimWithFiles := { toClaim := created, files := [] }
  (created, { s with claimsData := entry :: s.claimsData })

/-- The merge `{ ...current, ...updates, updatedAt: new Date() }` performed
by `MemoryStorage.updateClaim`: keys present in the update override the
current value, `updatedAt` is refreshed, `id` and `createdAt` are not
insertable and therefore survive. -/
def mergeClaim (c : Claim) (u : ClaimUpdate) (now : ℕ) : Claim :=
  { id := c.id
    claimId := u.claimId.getD c.claimId
    claimantName := u.claimantName.getD c.claimantName
    village := u.village.getD c.village
    district := u.district.getD c.district
    state := u.state.getD c.state
    area := u.area.getD c.area
    surveyNumber := u.surveyNumber.getD c.surveyNumber
    status := u.status.getD c.status
    ocrConfidence := u.ocrConfidence.getD c.ocrConfidence
    boundaryGeometry := u.boundaryGeometry.getD c.boundaryGeometry
    rawOcrText := u.rawOcrText.getD c.rawOcrText
    userId := u.userId.getD c.userId
    createdAt := c.createdAt
    updatedAt := now }

/-- `MemoryStorage.updateClaim`: finds the claim by `id` (throws
"Claim not found" otherwise), merges the updates, refreshes `updatedAt`
and writes the merged row back preserving the entry's `files`. -/
def updateClaim (s : MemState) (id : String) (now : ℕ) (updates : ClaimUpdate) :
    Except String (Claim × MemState) :=
  match s.claimsData.find? (fun c => c.id == id) with
  | none => .error "Claim not found"
  | some current =>
    let updated := mergeClaim current.toClaim updates now
    let entry : ClaimWithFiles := { toClaim := updated, files := current.files }
    let newList := replaceFirst (fun c => c.id == id) (fun _ => entry) s.claimsData
    .ok (updated, { s with claimsData := newList })

/-- `MemoryStorage.deleteClaim`: filters out the claim with the given id
AND every stored file whose `claimId` equals that id; returns whether the
claim list shrank. -/
def deleteClaim (s : MemState) (id : String) : Bool × MemState :=
  let remaining := s.claimsData.filter (fun c => !(c.id == id))
  let files := s.filesData.filter (fun f => !(f.claimId == some id))
  (remaining.length < s.claimsData.length,
    { claimsData := remaining, filesData := files })

/-- `MemoryStorage.getFile`. -/
def getFile (s : MemState) (id : String) : Option UploadedFile :=
  s.filesData.find? (fun f => f.id == id)

/-- `MemoryStorage.getFilesByClaimId`. -/
def getFilesByClaimId (s : MemState) (claimId : String) : List UploadedFile :=
  s.filesData.filter (fun f => f.claimId == some claimId)

/-- `MemoryStorage.createFile`: builds the row with a fresh id and the
upload timestamp, status defaulting to `uploaded`, and pushes it. -/
def createFile (s : MemState) (newId : String) (now : ℕ) (file : InsertFile) :
    UploadedFile × MemState :=
  let created : UploadedFile :=
    { id := newId
      uploadedAt := now
      status := file.status.getD .uploaded
      filename := file.filename
      originalName := file.originalName
      mimetype := file.mimetype
      size := file.size
      claimId := file.claimId
      userId := file.userId }
  (created, { s with filesData := s.filesData ++ [created] })

/-- `MemoryStorage.updateFileStatus`: finds the file by id (throws
"File not found" otherwise) and overwrites its `status` with the given
value, unconditionally — there is no transition guard. -/
def updateFileStatus (s : MemState) (id : String) (status : FileStatus) :
    Except String (UploadedFile × MemState) :=
  match s.filesData.find? (fun f => f.id == id) with
  | none => .error "File not found"
  | some file =>
    let updated := { file with status := status }
    let newList := replaceFirst (fun f => f.id == id) (fun _ => updated) s.filesData
    .ok (updated, { s with filesData := newList })

/-- `MemoryStorage.getDashboardStats`. -/
def getDashboardStats (s : MemState) : DashboardStats :=
  { totalClaims := s.claimsData.length
    processed := (s.claimsData.filter (fun c => c.status == ClaimStatus.approved)).length
    totalArea := s.claimsData.foldl (fun acc c => acc + c.area) 0
    pending := (s.claimsData.filter (fun c => c.status == ClaimStatus.pending)).length }

end MemoryStorage

namespace DatabaseStorage

/-- `DatabaseStorage.createClaim` inserts a row with `updatedAt` set to the
insert time; the database rejects the insert with a duplicate-key error
when the claim code already exists, per the `unique()` constraint declared
on `claims.claim_id` in `shared/schema.ts`.  The constraint check is made
explicit here; defaulted columns (`status`, `createdAt`) take their
declared defaults. -/
def createClaim (table : List Claim) (newId : String) (now : ℕ) (claim : InsertClaim) :
    Except String (Claim × List Claim) :=
  if table.any (fun c => c.claimId == claim.claimId) then
    .error "duplicate key value violates unique constraint"
  else
    let created : Claim :=
      { id := newId
        createdAt := now
        updatedAt := now
        status := claim.status.getD .pending
        claimId := claim.claimId
        claimantName := claim.claimantName
        village := claim.village
        district := claim.district
        state := claim.state
        area := claim.area
        surveyNumber := claim.surveyNumber
        ocrConfidence := claim.ocrConfidence
        boundaryGeometry := claim.boundaryGeometry
        rawOcrText := claim.rawOcrText
        userId := claim.userId }
    .ok (created, table ++ [created])

end DatabaseStorage

/-- The fixed property set carried by each feature of the
`GET /api/map/claims` FeatureCollection (`src/server/routes.ts`). -/
structure FeatureProperties where
  id : String
  claimId : String
  claimantName : String
  village : String
  district : Option String
  state : Option String
  area : ℚ
  status : ClaimStatus
  ocrConfidence : Option ℤ
deriving DecidableEq, Repr

/-- One GeoJSON feature of the map endpoint (geometry is the claim's
stored `boundaryGeometry` value, copied verbatim). -/
structure MapFeature where
  properties : FeatureProperties
  geometry : Option String
deriving DecidableEq, Repr

/-- The projection of a claim onto the map feature's property set. -/
def claimFeatureProperties (c : Claim) : FeatureProperties :=
  { id := c.id
    claimId := c.claimId
    claimantName := c.claimantName
    village := c.village
    district := c.district
    state := c.state
    area := c.area
    status := c.status
    ocrConfidence := c.ocrConfidence }

/-- The feature built from one claim by the map endpoint. -/
def claimFeature (c : Claim) : MapFeature :=
  { properties := claimFeatureProperties c, geometry := c.boundaryGeometry }

/-- `GET /api/map/claims`: fetches claims (default limit), keeps those with
a (truthy) boundary geometry, and projects each into a feature. -/
def mapClaimsHandler (s : MemState) : List MapFeature :=
  ((MemoryStorage.getClaims s 50).filter
      (fun c => c.boundaryGeometry.isSome)).map
    (fun c => claimFeature c.toClaim)

/-- The JSON body accepted by `POST /api/ocr/save` (`area` modelled by its
numeric value; absent or empty optional fields modelled as `none`). -/
structure OcrSaveBody where
  claimantName : String
  village : String
  claimId : String
  area : ℚ
  district : Option String
  state : Option String
  surveyNumber : Option String
  confidence : Option ℤ
  rawText : Option String
  fileId : Option String
deriving DecidableEq, Repr

/-- The outcome of the `POST /api/ocr/save` handler. -/
inductive OcrSaveResponse
  | badRequest (message : String)
  | created (claim : Claim)
deriving DecidableEq, Repr

/-- JS truthiness fallback `v || null` for an optional string: an empty
string collapses to `null`. -/
def orNullStr (v : Option String) : Option String :=
  v.bind (fun x => if x == "" then none else some x)

/-- JS truthiness fallback `v || null` for an optional integer: zero
collapses to `null`. -/
def orNullInt (v : Option ℤ) : Option ℤ :=
  v.bind (fun x => if x == 0 then none else some x)

/-- The `claimData` object the OCR-save handler builds from the body. -/
def ocrClaimData (ocrData : OcrSaveBody) : InsertClaim :=
  { claimId := ocrData.claimId
    claimantName := ocrData.claimantName
    village := ocrData.village
    district := orNullStr ocrData.district
    state := orNullStr ocrData.state
    area := ocrData.area
    surveyNumber := orNullStr ocrData.surveyNumber
    status := some .pending
    ocrConfidence := orNullInt ocrData.confidence
    boundaryGeometry := none
    rawOcrText := orNullStr ocrData.rawText
    userId := none }

/-- `POST /api/ocr/save` (`src/server/routes.ts`): rejects when a required
field is falsy; rejects with "Claim ID already exists" when a claim with
the submitted code is already stored; otherwise creates a pending claim
and, when a `fileId` was provided, advances that file's status to
`processed` (a missing file makes `updateFileStatus` throw, which the
handler converts to a 400 after the claim has already been stored). -/
def ocrSaveHandler (s : MemState) (newId : String) (now : ℕ) (ocrData : OcrSaveBody) :
    OcrSaveResponse × MemState :=
  if ocrData.claimantName == "" || ocrData.village == "" ||
      ocrData.claimId == "" || ocrData.area == 0 then
    (.badRequest "Missing required claim data", s)
  else
    match MemoryStorage.getClaimByClaimId s ocrData.claimId with
    | some _ => (.badRequest "Claim ID already exists", s)
    | none =>
      let res := MemoryStorage.createClaim s newId now (ocrClaimData ocrData)
      match orNullStr ocrData.fileId with
      | some fileId =>
        match MemoryStorage.updateFileStatus res.2 fileId .processed with
        | .ok fres => (.created res.1, fres.2)
        | .error _ => (.badRequest "Failed to save claim data", res.2)
      | none => (.created res.1, res.2)

/-- The structured record returned by the OCR stub (`OCRResult` in
`shared/schema.ts`; the `area` field is a decimal string). -/
structure OCRResult where
  claimantName : String
  village : String
  claimId : String
  area : String
  surveyNumber : Option String
  district : Option String
  state : Option String
  rawText : String
  confidence : ℤ
deriving DecidableEq, Repr

/-- First canned record of `OCRService.mockResults`. -/
def ocrMock0 : OCRResult :=
  { claimantName := "Ramesh Kumar"
    village := "Kachargaon"
    claimId := "FRA-2024-001"
    area := "2.45"
    surveyNumber := some "123/2A"
    district := some "Gadchiroli"
    state := some "Maharashtra"
    rawText := "FOREST RIGHTS ACT CLAIM FORM\nClaimant: Ramesh Kumar\nVillage: Kachargaon\nDistrict: Gadchiroli\nState: Maharashtra\nClaim ID: FRA-2024-001\nArea: 2.45 hectares\nSurvey No: 123/2A\nDate: 15-03-2024"
    confidence := 94 }

/-- Second canned record of `OCRService.mockResults`. -/
def ocrMock1 : OCRResult :=
  { claimantName := "Sita Devi"
    village := "Bamni"
    claimId := "FRA-2024-002"
    area := "1.87"
    surveyNumber := some "87/1B"
    district := some "Gadchiroli"
    state := some "Maharashtra"
    rawText := "फॉरेस्ट राइट्स एक्ट क्लेम फॉर्म\nदावेदार: सीता देवी\nगाव: बामनी\nजिल्हा: गडचिरोली\nराज्य: महाराष्ट्र\nक्लेम आयडी: FRA-2024-002\nक्षेत्र: 1.87 हेक्टर\nसर्वे नं: 87/1B"
    confidence := 67 }

/-- Third canned record of `OCRService.mockResults` (no survey number). -/
def ocrMock2 : OCRResult :=
  { claimantName := "Mohan Singh"
    village := "Mendha"
    claimId := "FRA-2024-003"
    area := "3.12"
    surveyNumber := none
    district := some "Gadchiroli"
    state := some "Maharashtra"
    rawText := "FOREST RIGHTS CLAIM\nName: Mohan Singh\nVillage: Mendha\nArea: 3.12 hectares\n[Handwritten text - partially illegible]\nSurvey: [unclear]\nDate: [smudged]"
    confidence := 23 }

/-- `OCRService.mockResults`. -/
def mockResults : List OCRResult := [ocrMock0, ocrMock1, ocrMock2]

/-- JavaScript rounding: `Math.round x = ⌊x + 1/2⌋`. -/
def jsRound (q : ℚ) : ℤ := ⌊q + 1 / 2⌋

/-- `rawText.replace(/\d/g, m => Math.random() > 0.7 ? "?" : m)`: each
ASCII digit is replaced by a question mark when the draw for that digit
says so; `draw n` models the n-th per-digit random comparison. -/
def corruptDigits (draw : ℕ → Bool) (s : String) : String :=
  (s.data.foldl
    (fun (st : String × ℕ) ch =>
      if ch.isDigit then
        (st.1.push (if draw st.2 then '?' else ch), st.2 + 1)
      else
        (st.1.push ch, st.2))
    ("", 0)).1

namespace OCRService

/-- The size-adjusted MIME-type base confidence: 90 for PDFs, 75 for
images, 85 otherwise; +5 above 1000 KB, -10 below 100 KB. -/
def heuristicBase (mimeType : String) (fileSizeKB : ℚ) : ℤ :=
  let base : ℤ :=
    if mimeType == "application/pdf" then 90
    else if mimeType.startsWith "image/" then 75
    else 85
  if fileSizeKB > 1000 then base + 5
  else if fileSizeKB < 100 then base - 10
  else base

/-- `Math.max(15, Math.min(98, baseConfidence + (Math.random() * 20 - 10)))`
where `confDraw` stands for the `Math.random()` draw. -/
def finalConfidence (mimeType : String) (fileSizeKB : ℚ) (confDraw : ℚ) : ℚ :=
  max 15 (min 98 ((heuristicBase mimeType fileSizeKB : ℚ) + (confDraw * 20 - 10)))

/-- `OCRService.processFile` (`src/server/services/ocrService.ts`).
Effects are made explicit: `fileExists` models the `fs.existsSync` check,
`fileSizeKB` the `statSync` size in KB, `confDraw` the `Math.random()`
perturbation draw, `pickDraw` the mock-record selection
(`Math.floor(Math.random() * 3)`), `timestampSuffix` the last four digits
of `Date.now()`, and `digitDraw` the per-digit corruption draws. -/
def processFile (fileExists : Bool) (fileSizeKB : ℚ) (mimeType : String)
    (confDraw : ℚ) (pickDraw : Fin 3) (timestampSuffix : String)
    (digitDraw : ℕ → Bool) : Except String OCRResult :=
  match fileExists with
  | false => .error "File not found for OCR processing"
  | true =>
    let mockResult := mockResults.getD pickDraw.val ocrMock0
    let uniqueClaimId := "FRA-2024-" ++ timestampSuffix
    let result : OCRResult :=
      { mockResult with
          claimId := uniqueClaimId
          confidence := jsRound (finalConfidence mimeType fileSizeKB confDraw) }
    let result : OCRResult :=
      if result.confidence < 50 then
        { result with
            district := if result.district.isSome then some "[UNCLEAR]" else none
            surveyNumber := some "[ILLEGIBLE]"
            rawText := corruptDigits digitDraw result.rawText }
      else if result.confidence < 75 then
        { result with
            rawText := result.rawText ++ "\n[Some text unclear due to image quality]" }
      else
        result
    .ok result

end OCRService

/-! ## Concrete fixtures used by witnesses and counterexamples -/

/-- The empty in-memory store. -/
def emptyState : MemState := { claimsData := [], filesData := [] }

/-- A sample claim insert (values from the first canned OCR record). -/
def fixtureInsert : InsertClaim :=
  { claimId := "FRA-2024-001"
    claimantName := "Ramesh Kumar"
    village := "Kachargaon"
    district := none
    state := none
    area := 49 / 20
    surveyNumber := none
    status := none
    ocrConfidence := none
    boundaryGeometry := none
    rawOcrText := none
    userId := none }

/-- The claim row produced by inserting `fixtureInsert` with id `c1` at time 0. -/
def claim1 : Claim :=
  { id := "c1"
    claimId := "FRA-2024-001"
    claimantName := "Ramesh Kumar"
    village := "Kachargaon"
    district := none
    state := none
    area := 49 / 20
    surveyNumber := none
    status := .pending
    ocrConfidence := none
    boundaryGeometry := none
    rawOcrText := none
    userId := none
    createdAt := 0
    updatedAt := 0 }

/-- Store holding exactly the claim `claim1`. -/
def stateOne : MemState := (MemoryStorage.createClaim emptyState "c1" 0 fixtureInsert).2

/-- An uploaded-file insert linked to claim `c1`. -/
def fixtureFile : InsertFile :=
  { filename := "doc-1.pdf"
    originalName := "claim-form.pdf"
    mimetype := "application/pdf"
    size := 2048
    status := some .uploaded
    claimId := some "c1"
    userId := none }

/-- Store holding `claim1` together with a file record linked to it. -/
def stateLinked : MemState := (MemoryStorage.createFile stateOne "f1" 1 fixtureFile).2

/-- An unlinked file insert whose status is `failed`. -/
def fixtureFailedFile : InsertFile :=
  { fixtureFile with claimId := none, status := some .failed }

/-- Store holding one failed, unlinked file record. -/
def stateFailedFile : MemState :=
  (MemoryStorage.createFile emptyState "f2" 0 fixtureFailedFile).2

/-- The file row produced by inserting `fixtureFailedFile` with id `f2` at time 0. -/
def failedFile : UploadedFile :=
  { id := "f2"
    filename := "doc-1.pdf"
    originalName := "claim-form.pdf"
    mimetype := "application/pdf"
    size := 2048
    status := .failed
    claimId := none
    userId := none
    uploadedAt := 0 }

/-- `failedFile` after its status is forced back to `processed`. -/
def failedFileProcessed : UploadedFile := { failedFile with status := .processed }

/-- The store reached from `stateFailedFile` by that status update. -/
def stateFileProcessed : MemState := { claimsData := [], filesData := [failedFileProcessed] }

/-- A claim insert carrying a boundary geometry. -/
def fixtureGeoInsert : InsertClaim :=
  { fixtureInsert with claimId := "FRA-2024-777", boundaryGeometry := some "POLYGON-1" }

/-- The claim row produced by inserting `fixtureGeoInsert` with id `c9` at time 3. -/
def claimGeo : Claim :=
  { claim1 with
      id := "c9"
      claimId := "FRA-2024-777"
      boundaryGeometry := some "POLYGON-1"
      createdAt := 3
      updatedAt := 3 }

/-- Store holding exactly the geometry-bearing claim `claimGeo`. -/
def stateGeo : MemState := (MemoryStorage.createClaim emptyState "c9" 3 fixtureGeoInsert).2

/-- A well-formed `POST /api/ocr/save` body using the code `FRA-2024-001`. -/
def fixtureBody : OcrSaveBody :=
  { claimantName := "Ramesh Kumar"
    village := "Kachargaon"
    claimId := "FRA-2024-001"
    area := 49 / 20
    district := none
    state := none
    surveyNumber := none
    confidence := some 94
    rawText := none
    fileId := none }

/-- A partial update touching only `claimantName` and `area`. -/
def fixtureUpdate : ClaimUpdate :=
  { claimantName := some "Sita Devi", area := some (187 / 100) }

/-- The record `processFile` returns for a small PNG when the confidence
draw sends the heuristic below the lower clamp (confidence 15 < 50). -/
def fixtureDegraded : OCRResult :=
  { ocrMock0 with
      claimId := "FRA-2024-0000"
      confidence := 15
      district := some "[UNCLEAR]"
      surveyNumber := some "[ILLEGIBLE]"
      rawText := corruptDigits (fun _ => false) ocrMock0.rawText }

/-- The record `processFile` returns for a large PDF with a neutral
confidence draw (confidence 95, no degradation). -/
def fixtureClean : OCRResult :=
  { ocrMock0 with claimId := "FRA-2024-0042", confidence := 95 }

/-- The file row produced by inserting `fixtureFile` with id `f1` at time 1. -/
def linkedFile : UploadedFile :=
  { id := "f1"
    filename := "doc-1.pdf"
    originalName := "claim-form.pdf"
    mimetype := "application/pdf"
    size := 2048
    status := .uploaded
    claimId := some "c1"
    userId := none
    uploadedAt := 1 }

/-- The map feature projected from `claimGeo`. -/
def geoFeature : MapFeature := claimFeature claimGeo

/-- The store reached from `stateOne` by applying `fixtureUpdate` at time 5. -/
def stateOneUpdated : MemState :=
  { claimsData := [{ toClaim := MemoryStorage.mergeClaim claim1 fixtureUpdate 5, files := [] }]
    filesData := [] }

/-! ## General lemmas -/

theorem foldl_add_map_sum {α : Type} (f : α → ℚ) (l : List α) (acc : ℚ) :
    l.foldl (fun a c => a + f c) acc = acc + (l.map f).sum := by
  induction l generalizing acc with
  | nil => simp
  | cons x xs ih => simp [List.foldl_cons, ih (acc + f x), add_assoc]

theorem mem_replaceFirst_const {α : Type} (p : α → Bool) (y : α) :
    ∀ l : List α, (∃ x ∈ l, p x = true) → y ∈ replaceFirst p (fun _ => y) l := by
  intro l h
  induction l with
  | nil => simp at h
  | cons a as ih =>
    by_cases hp : p a
    · simp [replaceFirst, hp]
    · obtain ⟨x, hx, hpx⟩ := h
      rcases List.mem_cons.mp hx with rfl | hx
      · exact absurd hpx hp
      · simpa [replaceFirst, hp] using Or.inr (ih ⟨x, hx, hpx⟩)

/-- A successful `updateFileStatus` only rewrites `filesData`. -/
theorem updateFileStatus_claimsData (s : MemState) (id : String) (st : FileStatus)
    (f' : UploadedFile) (s' : MemState)
    (h : MemoryStorage.updateFileStatus s id st = .ok (f', s')) :
    s'.claimsData = s.claimsData := by
  unfold MemoryStorage.updateFileStatus at h
  cases hf : s.filesData.find? (fun f => f.id == id) with
  | none => rw [hf] at h; cases h
  | some file =>
    rw [hf] at h
    simp only [Except.ok.injEq, Prod.mk.injEq] at h
    rw [← h.2]

/-- `getClaimByClaimId` only looks at `claimsData`. -/
theorem getClaimByClaimId_congr (s s' : MemState) (code : String)
    (h : s.claimsData = s'.claimsData) :
    MemoryStorage.getClaimByClaimId s code = MemoryStorage.getClaimByClaimId s' code := by
  simp [MemoryStorage.getClaimByClaimId, h]

/-- The claim created by `createClaim` is found again under its code. -/
theorem getClaimByClaimId_createClaim (s : MemState) (newId : String) (now : ℕ)
    (ic : InsertClaim) :
    MemoryStorage.getClaimByClaimId ((MemoryStorage.createClaim s newId now ic).2) ic.claimId
      = some (MemoryStorage.createClaim s newId now ic).1 := by
  simp [MemoryStorage.createClaim, MemoryStorage.getClaimByClaimId, List.find?_cons_of_pos]


/-- Rounding the clamped heuristic keeps the result inside the clamp. -/
theorem jsRound_clamp_bounds (x : ℚ) :
    15 ≤ jsRound (max 15 (min 98 x)) ∧ jsRound (max 15 (min 98 x)) ≤ 98 := by
  have h1 : (15 : ℚ) ≤ max 15 (min 98 x) := le_max_left _ _
  have h2 : max 15 (min 98 x) ≤ 98 := max_le (by norm_num) (min_le_left _ _)
  unfold jsRound
  constructor
  · exact Int.le_floor.mpr (by push_cast; linarith)
  · have h3 : ⌊max 15 (min 98 x) + 1 / 2⌋ < 99 := Int.floor_lt.mpr (by push_cast; linarith)
    omega

/-! ## C6, C7, C8, C9, C10 -/

/-- C6: for every store state, the dashboard statistics satisfy
`processed ≤ totalClaims` and `pending ≤ totalClaims`, `totalArea` is the
sum of the `area` field over all stored claims, `processed` counts the
claims with status `approved` and `pending` those with status `pending`. -/
theorem dashboardStats_invariants (s : MemState) :
    (MemoryStorage.getDashboardStats s).processed ≤
        (MemoryStorage.getDashboardStats s).totalClaims ∧
      (MemoryStorage.getDashboardStats s).pending ≤
        (MemoryStorage.getDashboardStats s).totalClaims ∧
      (MemoryStorage.getDashboardStats s).totalArea =
        (s.claimsData.map (fun c => c.area)).sum ∧
      (MemoryStorage.getDashboardStats s).processed =
        (s.claimsData.filter (fun c => c.status == ClaimStatus.approved)).length ∧
      (MemoryStorage.getDashboardStats s).pending =
        (s.claimsData.filter (fun c => c.status == ClaimStatus.pending)).length := by
  unfold MemoryStorage.getDashboardStats
  refine ⟨List.length_filter_le _ _, List.length_filter_le _ _, ?_, rfl, rfl⟩
  simpa using foldl_add_map_sum (fun c : ClaimWithFiles => c.area) s.claimsData 0

/-- C7: deleting an id that no stored claim carries (in a store whose file
records only reference stored claims, per the schema's foreign key) returns
`false` and leaves the store unchanged. -/
theorem deleteClaim_missing_id_noop (s : MemState) (id : String)
    (hclaims : ∀ c ∈ s.claimsData, ¬ c.toClaim.id = id)
    (hfiles : ∀ f ∈ s.filesData,
      f.claimId = none ∨ ∃ c ∈ s.claimsData, f.claimId = some c.toClaim.id) :
    MemoryStorage.deleteClaim s id = (false, s) := by
  have h1 : s.claimsData.filter (fun c => !(c.id == id)) = s.claimsData := by
    apply List.filter_eq_self.mpr
    intro a ha
    simpa using hclaims a ha
  have h2 : s.filesData.filter (fun f => !(f.claimId == some id)) = s.filesData := by
    apply List.filter_eq_self.mpr
    intro f hf
    rcases hfiles f hf with h | ⟨c, hc, hcid⟩
    · simp [h]
    · have hne := hclaims c hc
      simp [hcid, hne]
  unfold MemoryStorage.deleteClaim
  simp [h1, h2]

/-- C7 witness: deleting a missing id from a concrete linked store is a no-op. -/
theorem deleteClaim_missing_id_noop_witness :
    MemoryStorage.deleteClaim stateLinked "missing-id" = (false, stateLinked) :=
  deleteClaim_missing_id_noop stateLinked "missing-id"
    (by with_unfolding_all decide) (by with_unfolding_all decide)

/-- C10: `updateFileStatus` enforces no transition guard: whenever a file
with the given id is stored, the call succeeds for every target status,
returning the record with exactly that status (all other fields unchanged)
and storing it, regardless of the file's current status. -/
theorem updateFileStatus_no_guard (s : MemState) (id : String) (st : FileStatus)
    (file f' : UploadedFile) (s' : MemState)
    (hfind : MemoryStorage.getFile s id = some file)
    (hrun : MemoryStorage.updateFileStatus s id st = .ok (f', s')) :
    f' = { file with status := st } ∧ f'.status = st ∧ f' ∈ s'.filesData := by
  have hfind' : s.filesData.find? (fun f => f.id == id) = some file := hfind
  unfold MemoryStorage.updateFileStatus at hrun
  rw [hfind'] at hrun
  simp only [Except.ok.injEq, Prod.mk.injEq] at hrun
  obtain ⟨hf, hs⟩ := hrun
  subst hf
  subst hs
  refine ⟨rfl, rfl, ?_⟩
  have hmem := List.mem_of_find?_eq_some hfind'
  have hp := List.find?_some hfind'
  exact mem_replaceFirst_const _ _ _ ⟨file, hmem, hp⟩

/-- C10 witness: a stored `failed` file is moved straight back to
`processed` — a backward transition. -/
theorem updateFileStatus_no_guard_witness :
    failedFileProcessed = { failedFile with status := FileStatus.processed } ∧
      failedFileProcessed.status = FileStatus.processed ∧
      failedFileProcessed ∈ stateFileProcessed.filesData :=
  updateFileStatus_no_guard stateFailedFile "f2" .processed failedFile
    failedFileProcessed stateFileProcessed
    (by with_unfolding_all decide) (by with_unfolding_all decide)

/-- The confidence of a successful `processFile` run is the rounded
clamped heuristic; the degradation step never changes it. -/
theorem processFile_confidence_eq (fileSizeKB : ℚ) (mimeType : String)
    (confDraw : ℚ) (pickDraw : Fin 3) (ts : String) (digitDraw : ℕ → Bool)
    (res : OCRResult)
    (hrun : OCRService.processFile true fileSizeKB mimeType confDraw pickDraw ts
        digitDraw = .ok res) :
    res.confidence = jsRound (OCRService.finalConfidence mimeType fileSizeKB confDraw) := by
  unfold OCRService.processFile at hrun
  simp only [Except.ok.injEq] at hrun
  subst hrun
  by_cases h1 : jsRound (OCRService.finalConfidence mimeType fileSizeKB confDraw) < 50
  · rw [if_pos h1]
  · rw [if_neg h1]
    by_cases h2 : jsRound (OCRService.finalConfidence mimeType fileSizeKB confDraw) < 75
    · rw [if_pos h2]
    · rw [if_neg h2]

/-- C8: for every existing input file, MIME type and random draw, the
confidence of a successful `processFile` run is an integer in [15, 98]:
the heuristic value is clamped to [15, 98] before rounding. -/
theorem processFile_confidence_bounds (fileSizeKB : ℚ) (mimeType : String)
    (confDraw : ℚ) (pickDraw : Fin 3) (ts : String) (digitDraw : ℕ → Bool)
    (res : OCRResult)
    (hrun : OCRService.processFile true fileSizeKB mimeType confDraw pickDraw ts
        digitDraw = .ok res) :
    15 ≤ res.confidence ∧ res.confidence ≤ 98 := by
  rw [processFile_confidence_eq fileSizeKB mimeType confDraw pickDraw ts digitDraw res hrun]
  unfold OCRService.finalConfidence
  exact jsRound_clamp_bounds _

/-- C8 witness: a 2 MB PDF with a neutral confidence draw yields
confidence 95, inside [15, 98]. -/
theorem processFile_confidence_bounds_witness :
    15 ≤ fixtureClean.confidence ∧ fixtureClean.confidence ≤ 98 :=
  processFile_confidence_bounds 2048 "application/pdf" (1 / 2) 0 "0042"
    (fun _ => false) fixtureClean (by with_unfolding_all decide)

/-- C9: whenever a successful `processFile` run returns confidence below
50, the returned record's survey number is the illegible marker, and its
district — when present on the selected canned record — is the unclear
marker. -/
theorem processFile_low_confidence_degradation (fileSizeKB : ℚ) (mimeType : String)
    (confDraw : ℚ) (pickDraw : Fin 3) (ts : String) (digitDraw : ℕ → Bool)
    (res : OCRResult)
    (hrun : OCRService.processFile true fileSizeKB mimeType confDraw pickDraw ts
        digitDraw = .ok res)
    (hconf : res.confidence < 50) :
    res.surveyNumber = some "[ILLEGIBLE]" ∧
      ((mockResults.getD pickDraw.val ocrMock0).district.isSome →
        res.district = some "[UNCLEAR]") := by
  have hc := processFile_confidence_eq fileSizeKB mimeType confDraw pickDraw ts
    digitDraw res hrun
  rw [hc] at hconf
  unfold OCRService.processFile at hrun
  simp only [Except.ok.injEq] at hrun
  subst hrun
  rw [if_pos hconf]
  refine ⟨rfl, fun h => ?_⟩
  simp [h]
  exact Option.isSome_iff_ne_none.mp (by simpa [List.getD] using h)

/-- C9 witness: a small PNG with an out-of-range perturbation draw clamps
to confidence 15 and is returned degraded. -/
theorem processFile_low_confidence_degradation_witness :
    fixtureDegraded.surveyNumber = some "[ILLEGIBLE]" :=
  (processFile_low_confidence_degradation 10 "image/png" (-10) 0 "0000"
    (fun _ => false) fixtureDegraded (by with_unfolding_all decide) (by decide)).1

/-- Replacing the first match preserves, for every element, the presence
of an element with the same key, provided the replacement keeps the key of
whatever it replaces. -/
theorem replaceFirst_key_mem {α β : Type} (key : α → β) (p : α → Bool) (g0 : α → α)
    (hkey : ∀ x, p x = true → key (g0 x) = key x) :
    ∀ l : List α, ∀ f ∈ l, ∃ g ∈ replaceFirst p g0 l, key g = key f := by
  intro l
  induction l with
  | nil => intro f hf; cases hf
  | cons a as ih =>
    intro f hf
    by_cases hp : p a
    · rcases List.mem_cons.mp hf with rfl | hf
      · exact ⟨g0 f, by simp [replaceFirst, hp], hkey f hp⟩
      · exact ⟨f, by simp [replaceFirst, hp, hf], rfl⟩
    · rcases List.mem_cons.mp hf with rfl | hf
      · exact ⟨f, by simp [replaceFirst, hp], rfl⟩
      · obtain ⟨g, hg, hk⟩ := ih f hf
        exact ⟨g, by simp [replaceFirst, hp]; exact Or.inr hg, hk⟩

/-! ## C1 and C2 -/

/-- C1 counterexample: the in-memory backend performs no uniqueness check —
inserting `fixtureInsert` a second time into a store already holding its
claim code succeeds and stores a second row with the same code. -/
theorem memoryCreateClaim_duplicate_inserts_row :
    ((MemoryStorage.createClaim stateOne "c2" 1 fixtureInsert).2.claimsData.filter
        (fun c => c.claimId == "FRA-2024-001")).length = 2 := by
  with_unfolding_all decide

/-- C1 (amended): when the claim code already exists, the relational
backend rejects the insert with a duplicate-key error and writes no row,
while the in-memory backend always succeeds and prepends a further row
carrying the same code. -/
theorem createClaim_duplicate_key_behavior (table : List Claim) (s : MemState)
    (ic : InsertClaim) (newIdDb newIdMem : String) (nowDb nowMem : ℕ)
    (hdup : table.any (fun c => c.claimId == ic.claimId) = true) :
    DatabaseStorage.createClaim table newIdDb nowDb ic =
        .error "duplicate key value violates unique constraint" ∧
      ((MemoryStorage.createClaim s newIdMem nowMem ic).2.claimsData.filter
          (fun c => c.claimId == ic.claimId)).length =
        (s.claimsData.filter (fun c => c.claimId == ic.claimId)).length + 1 := by
  constructor
  · unfold DatabaseStorage.createClaim
    rw [if_pos hdup]
  · simp [MemoryStorage.createClaim, List.filter_cons]

/-- C1 witness: with `claim1` already stored, the duplicate insert of
`fixtureInsert` is rejected by the relational backend. -/
theorem createClaim_duplicate_key_behavior_witness :
    DatabaseStorage.createClaim [claim1] "db-id" 7 fixtureInsert =
      .error "duplicate key value violates unique constraint" :=
  (createClaim_duplicate_key_behavior [claim1] stateOne fixtureInsert "db-id" "c2" 7 7
    (by with_unfolding_all decide)).1

/-- C2 counterexample: the file record created by `createFile` and linked
to claim `c1` is present, yet `deleteClaim c1` removes it from the store. -/
theorem deleteClaim_removes_linked_files :
    (MemoryStorage.createFile stateOne "f1" 1 fixtureFile).1 ∈ stateLinked.filesData ∧
      (MemoryStorage.deleteClaim stateLinked "c1").2.filesData = [] := by
  with_unfolding_all decide

/-- C2 (amended): `deleteClaim` removes exactly the stored files whose
`claimId` equals the deleted id; `createClaim`, `createFile` and
`updateClaim` never remove a file record, and `updateFileStatus` keeps a
record with the same file id in the store. -/
theorem file_records_persistence (s : MemState) (id newId : String) (now : ℕ)
    (ic : InsertClaim) (fi : InsertFile) (u : ClaimUpdate) (st : FileStatus)
    (f : UploadedFile) (hf : f ∈ s.filesData) :
    (f ∈ (MemoryStorage.deleteClaim s id).2.filesData ↔ ¬ f.claimId = some id) ∧
      f ∈ (MemoryStorage.createClaim s newId now ic).2.filesData ∧
      f ∈ (MemoryStorage.createFile s newId now fi).2.filesData ∧
      (∀ c' s', MemoryStorage.updateClaim s id now u = .ok (c', s') →
        f ∈ s'.filesData) ∧
      (∀ f' s', MemoryStorage.updateFileStatus s id st = .ok (f', s') →
        ∃ g ∈ s'.filesData, g.id = f.id) := by
  refine ⟨?_, ?_, ?_, ?_, ?_⟩
  · simp only [MemoryStorage.deleteClaim]
    constructor
    · intro hmem hcid
      have hpred := (List.mem_filter.mp hmem).2
      simp [hcid] at hpred
    · intro hne
      exact List.mem_filter.mpr ⟨hf, by simp [hne]⟩
  · simpa [MemoryStorage.createClaim] using hf
  · simp only [MemoryStorage.createFile]
    exact List.mem_append_left _ hf
  · intro c' s' hrun
    unfold MemoryStorage.updateClaim at hrun
    cases hfind : s.claimsData.find? (fun c => c.id == id) with
    | none => rw [hfind] at hrun; cases hrun
    | some cur =>
      rw [hfind] at hrun
      simp only [Except.ok.injEq, Prod.mk.injEq] at hrun
      rw [← hrun.2]
      exact hf
  · intro f' s' hrun
    unfold MemoryStorage.updateFileStatus at hrun
    cases hfind : s.filesData.find? (fun g => g.id == id) with
    | none => rw [hfind] at hrun; cases hrun
    | some file =>
      rw [hfind] at hrun
      simp only [Except.ok.injEq, Prod.mk.injEq] at hrun
      rw [← hrun.2]
      have hpfile := List.find?_some hfind
      refine replaceFirst_key_mem (fun g => g.id) _ _ ?_ s.filesData f hf
      intro x hx
      have hx1 : x.id = id := by simpa using hx
      have hx2 : file.id = id := by simpa using hpfile
      simp [hx1, hx2]

/-- C2 witness: deleting an unrelated id keeps the linked file stored. -/
theorem file_records_persistence_witness :
    linkedFile ∈ (MemoryStorage.deleteClaim stateLinked "c-other").2.filesData ↔
      ¬ linkedFile.claimId = some "c-other" :=
  (file_records_persistence stateLinked "c-other" "x" 9 fixtureInsert fixtureFile
    {} FileStatus.processed linkedFile (by with_unfolding_all decide)).1

/-! ## C4 and C5 -/

/-- C4: every feature of the `GET /api/map/claims` GeoJSON comes from a
fetched claim with present boundary geometry; its geometry is exactly that
claim's stored `boundaryGeometry` and its properties are exactly the fixed
projection {id, claimId, claimantName, village, district, state, area,
status, ocrConfidence} of the claim. -/
theorem mapClaims_features_sound (s : MemState) (f : MapFeature)
    (hf : f ∈ mapClaimsHandler s) :
    f.geometry ≠ none ∧
      ∃ c, c ∈ MemoryStorage.getClaims s 50 ∧
        c.toClaim.boundaryGeometry = f.geometry ∧
        f.properties = claimFeatureProperties c.toClaim := by
  unfold mapClaimsHandler at hf
  obtain ⟨c, hc, hfc⟩ := List.mem_map.mp hf
  obtain ⟨hmem, hgeo⟩ := List.mem_filter.mp hc
  subst hfc
  refine ⟨?_, c, hmem, rfl, rfl⟩
  simp only [claimFeature]
  exact Option.isSome_iff_ne_none.mp (by simpa using hgeo)

/-- C4 witness: the feature projected from the stored geometry-bearing
claim indeed carries a geometry. -/
theorem mapClaims_features_sound_witness : geoFeature.geometry ≠ none :=
  (mapClaims_features_sound stateGeo geoFeature (by with_unfolding_all decide)).1

/-- C5: a successful `updateClaim` of an existing claim never changes
`createdAt`, sets `updatedAt` to the (monotone) current time — hence to a
value at least the previous one — overrides exactly the fields present in
the partial update, and keeps every field the update omits. -/
theorem updateClaim_frame (s : MemState) (id : String) (now : ℕ) (u : ClaimUpdate)
    (cur : ClaimWithFiles) (c' : Claim) (s' : MemState)
    (hfind : MemoryStorage.getClaim s id = some cur)
    (hmono : cur.updatedAt ≤ now)
    (hrun : MemoryStorage.updateClaim s id now u = .ok (c', s')) :
    c'.createdAt = cur.createdAt ∧ c'.updatedAt = now ∧ cur.updatedAt ≤ c'.updatedAt ∧
      (u.claimId = none → c'.claimId = cur.claimId) ∧
      (u.claimantName = none → c'.claimantName = cur.claimantName) ∧
      (u.village = none → c'.village = cur.village) ∧
      (u.district = none → c'.district = cur.district) ∧
      (u.state = none → c'.state = cur.state) ∧
      (u.area = none → c'.area = cur.area) ∧
      (u.surveyNumber = none → c'.surveyNumber = cur.surveyNumber) ∧
      (u.status = none → c'.status = cur.status) ∧
      (u.ocrConfidence = none → c'.ocrConfidence = cur.ocrConfidence) ∧
      (u.boundaryGeometry = none → c'.boundaryGeometry = cur.boundaryGeometry) ∧
      (u.rawOcrText = none → c'.rawOcrText = cur.rawOcrText) ∧
      (u.userId = none → c'.userId = cur.userId) ∧
      (u.claimId.isSome → some c'.claimId = u.claimId) ∧
      (u.claimantName.isSome → some c'.claimantName = u.claimantName) ∧
      (u.village.isSome → some c'.village = u.village) ∧
      (u.district.isSome → some c'.district = u.district) ∧
      (u.state.isSome → some c'.state = u.state) ∧
      (u.area.isSome → some c'.area = u.area) ∧
      (u.surveyNumber.isSome → some c'.surveyNumber = u.surveyNumber) ∧
      (u.status.isSome → some c'.status = u.status) ∧
      (u.ocrConfidence.isSome → some c'.ocrConfidence = u.ocrConfidence) ∧
      (u.boundaryGeometry.isSome → some c'.boundaryGeometry = u.boundaryGeometry) ∧
      (u.rawOcrText.isSome → some c'.rawOcrText = u.rawOcrText) ∧
      (u.userId.isSome → some c'.userId = u.userId) := by
  have hfind' : s.claimsData.find? (fun c => c.id == id) = some cur := hfind
  unfold MemoryStorage.updateClaim at hrun
  rw [hfind'] at hrun
  simp only [Except.ok.injEq, Prod.mk.injEq] at hrun
  obtain ⟨hc, -⟩ := hrun
  subst hc
  refine ⟨rfl, rfl, hmono, ?_, ?_, ?_, ?_, ?_, ?_, ?_, ?_, ?_, ?_, ?_, ?_, ?_, ?_,
    ?_, ?_, ?_, ?_, ?_, ?_, ?_, ?_, ?_, ?_⟩ <;>
      intro h <;>
      simp [MemoryStorage.mergeClaim, h] <;>
      (obtain ⟨v, hv⟩ := Option.isSome_iff_exists.mp h; simp [hv])

/-- C5 witness: updating `claim1` with `fixtureUpdate` at time 5 keeps
`createdAt`. -/
theorem updateClaim_frame_witness :
    (MemoryStorage.mergeClaim claim1 fixtureUpdate 5).createdAt = claim1.createdAt :=
  (updateClaim_frame stateOne "c1" 5 fixtureUpdate ⟨claim1, []⟩
    (MemoryStorage.mergeClaim claim1 fixtureUpdate 5) stateOneUpdated
    (by with_unfolding_all decide) (by decide) (by with_unfolding_all decide)).1

/-! ## C3 -/

/-- With all required fields truthy, the handler's validation guard is
false. -/
theorem ocrSave_required_ok (b : OcrSaveBody) (hname : ¬ b.claimantName = "")
    (hvill : ¬ b.village = "") (hcid : ¬ b.claimId = "") (harea : ¬ b.area = 0) :
    (b.claimantName == "" || b.village == "" || b.claimId == "" || b.area == 0)
      = false := by
  simp only [Bool.or_eq_false_iff, beq_eq_false_iff_ne, ne_eq]
  exact ⟨⟨⟨hname, hvill⟩, hcid⟩, harea⟩

/-- A fresh OCR save changes `claimsData` exactly as the underlying
`createClaim` does (the optional file-status update only touches files). -/
theorem ocrSaveHandler_claimsData (s : MemState) (id1 : String) (t1 : ℕ)
    (b : OcrSaveBody)
    (hcond : (b.claimantName == "" || b.village == "" || b.claimId == ""
        || b.area == 0) = false)
    (hnone : MemoryStorage.getClaimByClaimId s b.claimId = none) :
    ((ocrSaveHandler s id1 t1 b).2).claimsData =
      ((MemoryStorage.createClaim s id1 t1 (ocrClaimData b)).2).claimsData := by
  unfold ocrSaveHandler
  simp only [hcond, Bool.false_eq_true, if_false, hnone]
  cases horn : orNullStr b.fileId with
  | none => simp [horn]
  | some fid =>
    cases hupd : MemoryStorage.updateFileStatus
        ((MemoryStorage.createClaim s id1 t1 (ocrClaimData b)).2) fid .processed with
    | error e => simp [horn, hupd]
    | ok v =>
      have hcd := updateFileStatus_claimsData _ _ _ v.1 v.2 (by rw [hupd])
      simp [horn, hupd, hcd]

/-- C3: for a body whose required fields are present, `POST /api/ocr/save`
answers 400 "Claim ID already exists" and leaves the store unchanged
whenever a claim with the submitted code is already stored; in particular
a second identical submission right after a first one fails this way. -/
theorem ocrSave_duplicate_claimId_rejected (s : MemState) (b : OcrSaveBody)
    (id1 id2 : String) (t1 t2 : ℕ)
    (hname : ¬ b.claimantName = "") (hvill : ¬ b.village = "")
    (hcid : ¬ b.claimId = "") (harea : ¬ b.area = 0) :
    (∀ c, MemoryStorage.getClaimByClaimId s b.claimId = some c →
        ocrSaveHandler s id1 t1 b = (.badRequest "Claim ID already exists", s)) ∧
      (MemoryStorage.getClaimByClaimId s b.claimId = none →
        ocrSaveHandler ((ocrSaveHandler s id1 t1 b).2) id2 t2 b =
          (.badRequest "Claim ID already exists", (ocrSaveHandler s id1 t1 b).2)) := by
  have hcond := ocrSave_required_ok b hname hvill hcid harea
  constructor
  · intro c hc
    unfold ocrSaveHandler
    simp [hcond, hc]
  · intro hnone
    have hstate := ocrSaveHandler_claimsData s id1 t1 b hcond hnone
    have hdup2 : MemoryStorage.getClaimByClaimId ((ocrSaveHandler s id1 t1 b).2)
        b.claimId = some (MemoryStorage.createClaim s id1 t1 (ocrClaimData b)).1 := by
      rw [getClaimByClaimId_congr _ _ _ hstate]
      exact getClaimByClaimId_createClaim s id1 t1 (ocrClaimData b)
    set s1 := (ocrSaveHandler s id1 t1 b).2 with hs1
    unfold ocrSaveHandler
    simp [hcond, hdup2]

/-- C3 witness: submitting `fixtureBody` twice in sequence from the empty
store makes the second call fail with the duplicate message and leave the
store as after the first call. -/
theorem ocrSave_duplicate_claimId_rejected_witness :
    ocrSaveHandler ((ocrSaveHandler emptyState "a1" 0 fixtureBody).2) "a2" 1
        fixtureBody =
      (.badRequest "Claim ID already exists",
        (ocrSaveHandler emptyState "a1" 0 fixtureBody).2) :=
  (ocrSave_duplicate_claimId_rejected emptyState fixtureBody "a1" "a2" 0 1
    (by decide) (by decide) (by decide) (by with_unfolding_all decide)).2
    (by with_unfolding_all decide)
